import Mathlib

/-!
Shallow embedding of the cost-of-living ETL pipeline (src/app.py).

A pandas `DataFrame` is modelled as a column-name list plus a list of rows,
each row an association list from column name to a scalar `Value`.  Pandas
operations that raise on bad input (missing column, unparseable number,
concatenation of an empty object list) are modelled as `Option`-valued
functions returning `none` on the fatal case.  Python floats are modelled
as rationals; calendar dates as their ISO strings.
-/

set_option autoImplicit false

namespace CostOfLivingEtl

/-- A scalar cell value: raw CSV text, an integer obtained by `astype(int)`,
a float obtained by `astype(float)` (modelled as the exact scaled decimal
`m / 10^k` written in the source text, as the pair `(m, k)`), or a calendar
date (modelled as its ISO string).  The pipeline never uses a float as a
join key, so structural equality of the pairs is the only equality it ever
exercises on floats. -/
inductive Value where
  | str  : String → Value
  | int  : Int → Value
  | flt  : Nat → Nat → Value
  | date : String → Value
deriving DecidableEq

/-- The rational number denoted by the float cell `Value.flt m k`. -/
def fltDenote (m k : Nat) : Rat := (m : Rat) / (10 : Rat) ^ k

/-- One row: an association list from column name to value. -/
abbrev Row := List (String × Value)

/-- A tabular dataset: the column labels and the rows. -/
structure DataFrame where
  cols : List String
  rows : List Row
deriving DecidableEq

/-- Boolean test that `pat` is a prefix of `s` (character lists). -/
def prefixFits : List Char → List Char → Bool
  | [], _ => true
  | _ :: _, [] => false
  | a :: l, b :: m => a == b && prefixFits l m

/-- Boolean test that `pat` occurs contiguously inside `s` (character lists). -/
def infixFits (pat : List Char) : List Char → Bool
  | [] => pat.isEmpty
  | c :: t => prefixFits pat (c :: t) || infixFits pat t

/-- Python's `pat in s` substring test / pandas `str.contains` with a literal
(regex-free) pattern: case-sensitive contiguous substring match. -/
def strContains (s pat : String) : Bool := infixFits pat.toList s.toList

/-- Value of column `c` in row `r` (first matching entry). -/
def lookupCol : Row → String → Option Value
  | [], _ => none
  | p :: t, c => if p.1 == c then some p.2 else lookupCol t c

/-- Apply a pandas `rename(columns=m)` mapping to one column label:
labels in the mapping are replaced, all others kept. -/
def applyRen (m : List (String × String)) (c : String) : String :=
  match m.find? (fun p => p.1 == c) with
  | some p => p.2
  | none => c

/-- Rename the column labels of one row. -/
def renameRow (m : List (String × String)) (r : Row) : Row :=
  r.map (fun p => (applyRen m p.1, p.2))

/-- `df.rename(columns=m)`: relabels columns, values untouched. -/
def renameDf (df : DataFrame) (m : List (String × String)) : DataFrame :=
  ⟨df.cols.map (applyRen m), df.rows.map (renameRow m)⟩

/-- Map an option-valued function over a list, failing if any element fails. -/
def optMapM {α β : Type} (f : α → Option β) : List α → Option (List β)
  | [] => some []
  | a :: l =>
    match f a, optMapM f l with
    | some b, some bs => some (b :: bs)
    | _, _ => none

/-- Rewrite every entry of column `c` in row `r` through the fallible
cell-level coercion `f`; entries of other columns are untouched. -/
def updateColM (c : String) (f : Value → Option Value) (r : Row) : Option Row :=
  optMapM (fun p => if p.1 == c then (f p.2).map (fun v => (p.1, v)) else some p) r

/-- Decimal value of one digit character, `none` for a non-digit. -/
def digitVal (c : Char) : Option Nat :=
  if 48 ≤ c.toNat ∧ c.toNat ≤ 57 then some (c.toNat - 48) else none

/-- Accumulator pass of decimal-literal parsing. -/
def natOfDigitsAux (acc : Nat) : List Char → Option Nat
  | [] => some acc
  | c :: l =>
    match digitVal c with
    | some d => natOfDigitsAux (acc * 10 + d) l
    | none => none

/-- Parse a non-empty all-digit character list as a natural number. -/
def natOfDigits (l : List Char) : Option Nat :=
  match l with
  | [] => none
  | _ :: _ => natOfDigitsAux 0 l

/-- Python `int(s)` on the integer literals the extracts carry: an optional
minus sign followed by digits. -/
def intOfString (s : String) : Option Int :=
  match s.data with
  | '-' :: rest => (natOfDigits rest).map (fun n => -(n : Int))
  | l => (natOfDigits l).map (fun n => (n : Int))

/-- Cell-level `astype(int)`: integer-literal text parses, integers pass
through, anything else is a fatal coercion error. -/
def intCoerce : Value → Option Value
  | Value.str s => (intOfString s).map Value.int
  | Value.int n => some (Value.int n)
  | _ => none

/-- Python `x.replace(",", "")`: delete every comma character. -/
def stripCommas (s : String) : String := ⟨s.data.filter (fun ch => ch != ',')⟩

/-- Split a character list at every dot. -/
def splitOnDot : List Char → List (List Char)
  | [] => [[]]
  | c :: t =>
    if c == '.' then [] :: splitOnDot t
    else
      match splitOnDot t with
      | [] => [[c]]
      | h :: t2 => (c :: h) :: t2

/-- CPython `float()` on the plain decimal notation the extracts use
(`"1234"` or `"1234.50"`): the exact scaled decimal `(mantissa, scale)`
denoting `mantissa / 10^scale`. -/
def floatOfString (s : String) : Option (Nat × Nat) :=
  match splitOnDot s.data with
  | [i] => (natOfDigits i).map (fun n => (n, 0))
  | [i, f] =>
    match natOfDigits i, natOfDigits f with
    | some a, some b => some (a * 10 ^ f.length + b, f.length)
    | _, _ => none
  | _ => none

/-- Cell-level `apply(lambda x: x.replace(",", "")).astype(float)`:
comma-stripping then float coercion; non-text cells are a fatal error
(`.replace` is a string method). -/
def floatCoerce : Value → Option Value
  | Value.str s => (floatOfString (stripCommas s)).map (fun p => Value.flt p.1 p.2)
  | _ => none

/-- Cell-level `apply(lambda x: x + suf)`: string concatenation; non-text
cells are a fatal error. -/
def strAppendCoerce (suf : String) : Value → Option Value
  | Value.str s => some (Value.str (s ++ suf))
  | _ => none

/-- Apply a fallible cell-level coercion to one whole column of the frame;
fatal if the column is absent or any cell fails. -/
def colOp (df : DataFrame) (c : String) (f : Value → Option Value) : Option DataFrame :=
  if df.cols.contains c then
    (optMapM (updateColM c f) df.rows).map (fun rs => ⟨df.cols, rs⟩)
  else none

/-- `df.NUMBER_OF_CHILDREN = df.NUMBER_OF_CHILDREN.astype(int)` and friends. -/
def astypeIntCol (df : DataFrame) (c : String) : Option DataFrame := colOp df c intCoerce

/-- `df.usd_amount = df.usd_amount.apply(lambda x: x.replace(",", "")).astype(float)`. -/
def astypeFloatCommaCol (df : DataFrame) (c : String) : Option DataFrame := colOp df c floatCoerce

/-- `df.COUNTY = df.COUNTY.apply(lambda x: x + suf)`. -/
def applyAppendCol (df : DataFrame) (c : String) (suf : String) : Option DataFrame :=
  colOp df c (strAppendCoerce suf)

/-- Row-level predicate of `df[df[c].str.contains(pat)]`: the cell exists,
is text, and contains `pat`. -/
def rowPassesContains (c pat : String) (r : Row) : Bool :=
  match lookupCol r c with
  | some (Value.str s) => strContains s pat
  | _ => false

/-- `df[df[c].str.contains(pat)]`: keep rows whose `c` cell contains `pat`;
fatal if the column is absent. -/
def filterContains (df : DataFrame) (c pat : String) : Option DataFrame :=
  if df.cols.contains c then
    some ⟨df.cols, df.rows.filter (rowPassesContains c pat)⟩
  else none

/-- Restrict one row to the named columns, in that order. -/
def projectRow (keep : List String) (r : Row) : Row :=
  keep.filterMap (fun c => (lookupCol r c).map (fun v => (c, v)))

/-- `df[keep]`: column-subset selection; fatal (`KeyError`) if any named
column is absent from the frame. -/
def projectDf (df : DataFrame) (keep : List String) : Option DataFrame :=
  if keep.all (fun c => df.cols.contains c) then
    some ⟨keep, df.rows.map (projectRow keep)⟩
  else none

/-- `df[name] = v` for a fresh column: appended at the end, constant value. -/
def addConstCol (df : DataFrame) (c : String) (v : Value) : DataFrame :=
  ⟨df.cols ++ [c], df.rows.map (fun r => r ++ [(c, v)])⟩

/-- The `" COUNTY"` suffix normalization applied to county names. -/
def normalizeCounty (s : String) : String := s ++ " COUNTY"

/-- Column mapping of `transform_living_wage_df` (src/app.py lines 44-52). -/
def wageRenames : List (String × String) :=
  [("num_children", "NUMBER_OF_CHILDREN"), ("num_adults", "NUMBER_OF_ADULTS"),
   ("county", "COUNTY"), ("num_working", "NUMBER_OF_WORKING_ADULTS"),
   ("usd_amount", "HOURLY_WAGE")]

/-- Projection list of `transform_living_wage_df` (src/app.py line 55). -/
def wageKeepCols : List String :=
  ["COUNTY", "NUMBER_OF_ADULTS", "NUMBER_OF_CHILDREN", "NUMBER_OF_WORKING_ADULTS", "HOURLY_WAGE"]

/-- Column mapping of `transform_annual_expense_df` (src/app.py lines 72-81). -/
def expenseRenames : List (String × String) :=
  [("num_children", "NUMBER_OF_CHILDREN"), ("num_adults", "NUMBER_OF_ADULTS"),
   ("num_working", "NUMBER_OF_WORKING_ADULTS"), ("expense_category", "CATEGORY"),
   ("usd_amount", "AMOUNT"), ("county", "COUNTY")]

/-- Column mapping of `transform_typical_annual_salary_df` (src/app.py lines 98-100). -/
def salaryRenames : List (String × String) :=
  [("occupational_area", "OCCUPATION"), ("typical_annual_salary", "SALARY"),
   ("county", "COUNTY")]

/-- `transform_living_wage_df` (src/app.py lines 33-58): living-wage filter,
rename, children `astype(int)`, county suffix, projection, snapshot stamp.
`today` is the run's processing date value. -/
def transform_living_wage_df (today : Value) (df : DataFrame) : Option DataFrame :=
  (filterContains df "wage_level" "LIVING").bind (fun d1 =>
    (astypeIntCol (renameDf d1 wageRenames) "NUMBER_OF_CHILDREN").bind (fun d3 =>
      (applyAppendCol d3 "COUNTY" " COUNTY").bind (fun d4 =>
        (projectDf d4 wageKeepCols).map (fun d5 =>
          addConstCol d5 "SNAPSHOT_DATE" today))))

/-- The statements of `transform_annual_expense_df` after the in-place
`usd_amount` coercion (src/app.py lines 72-85): rename, children
`astype(int)`, county suffix, snapshot stamp.  No projection step. -/
def expenseAfterCoerce (today : Value) (d1 : DataFrame) : Option DataFrame :=
  (astypeIntCol (renameDf d1 expenseRenames) "NUMBER_OF_CHILDREN").bind (fun d3 =>
    (applyAppendCol d3 "COUNTY" " COUNTY").map (fun d4 =>
      addConstCol d4 "SNAPSHOT_DATE" today))

/-- `transform_annual_expense_df` (src/app.py lines 61-85): the value the
function returns to its caller. -/
def transform_annual_expense_df (today : Value) (df : DataFrame) : Option DataFrame :=
  (astypeFloatCommaCol df "usd_amount").bind (expenseAfterCoerce today)

/-- `transform_typical_annual_salary_df` (src/app.py lines 88-103): rename,
snapshot stamp, county suffix. -/
def transform_typical_annual_salary_df (today : Value) (df : DataFrame) : Option DataFrame :=
  applyAppendCol (addConstCol (renameDf df salaryRenames) "SNAPSHOT_DATE" today) "COUNTY" " COUNTY"

/-- Equality test of the left row's `lk` cell and the right row's `rk` cell,
as pandas `merge` does: both cells must exist and be equal. -/
def rowMatch (lk rk : String) (r d : Row) : Bool :=
  match lookupCol r lk, lookupCol d rk with
  | some a, some b => decide (a = b)
  | _, _ => false

/-- `l.merge(r, left_on=lk, right_on=rk, how="inner")`: both key columns are
kept; output columns are the left columns followed by the right columns. -/
def mergeLR (l r : DataFrame) (lk rk : String) : DataFrame :=
  ⟨l.cols ++ r.cols,
   (l.rows.map (fun rr => (r.rows.filter (rowMatch lk rk rr)).map (fun d => rr ++ d))).flatten⟩

/-- `l.merge(r, on=k, how="inner")`: the shared key column appears once;
output columns are the left columns then the right non-key columns. -/
def mergeOn (l r : DataFrame) (k : String) : DataFrame :=
  ⟨l.cols ++ r.cols.filter (fun c => c != k),
   (l.rows.map (fun rr =>
     (r.rows.filter (rowMatch k k rr)).map (fun d => rr ++ d.filter (fun p => p.1 != k)))).flatten⟩

/-- The location-key join of `main` (src/app.py lines 151-153):
`df.merge(location_df, on="COUNTY", how="inner")`. -/
def add_location_id (df loc : DataFrame) : DataFrame := mergeOn df loc "COUNTY"

/-- The date-key join of `main` (src/app.py lines 156-169):
`df.merge(dim_date_df, left_on="SNAPSHOT_DATE", right_on="DATE", how="inner")`
followed by `rename(columns={"DATE_ID": "SNAPSHOT_DATE_ID"})`. -/
def add_date_id (df dd : DataFrame) : DataFrame :=
  renameDf (mergeLR df dd "SNAPSHOT_DATE" "DATE") [("DATE_ID", "SNAPSHOT_DATE_ID")]

/-- `pd.concat(frames)`: row-wise concatenation of same-schema frames;
pandas raises `ValueError` ("No objects to concatenate") on an empty list,
modelled as `none`. -/
def concatFrames : List DataFrame → Option DataFrame
  | [] => none
  | d :: ds => some ⟨d.cols, d.rows ++ (ds.map DataFrame.rows).flatten⟩

/-- `get_df_from_s3` (src/app.py lines 13-30) after the blob-store listing:
`objects` are the (key, parsed CSV frame) pairs under the date prefix; keys
are filtered by the category token as a substring, the matching frames are
concatenated. -/
def get_df_from_s3 (objects : List (String × DataFrame)) (category : String) : Option DataFrame :=
  concatFrames ((objects.filter (fun p => strContains p.1 category)).map (fun p => p.2))

/-- Call semantics of `transform_living_wage_df`: the state of the caller's
frame object after the call, paired with the returned frame.  Line 43
rebinds the local name to a fresh frame (boolean-mask indexing copies), so
the later in-place column writes (lines 53-54) hit that copy, never the
caller's object. -/
def transform_living_wage_call (today : Value) (df : DataFrame) :
    DataFrame × Option DataFrame :=
  (df, transform_living_wage_df today df)

/-- Call semantics of `transform_typical_annual_salary_df`: line 98 rebinds
the local name to the rename's fresh frame before the in-place writes of
lines 101-102, so the caller's object is untouched. -/
def transform_typical_annual_salary_call (today : Value) (df : DataFrame) :
    DataFrame × Option DataFrame :=
  (df, transform_typical_annual_salary_df today df)

/-- Call semantics of `transform_annual_expense_df`: line 71 assigns the
coerced `usd_amount` column in place on the very object the caller passed
(no rebinding has happened yet), so on success the caller's frame is left
in the coerced state; on coercion failure the exception propagates before
the assignment, leaving the caller's frame unchanged. -/
def transform_annual_expense_call (today : Value) (df : DataFrame) :
    DataFrame × Option DataFrame :=
  match astypeFloatCommaCol df "usd_amount" with
  | none => (df, none)
  | some d1 => (d1, expenseAfterCoerce today d1)

/-- Row-level composite of the living-wage transform steps downstream of
the filter: rename, children coercion, county suffix, projection to the
kept columns, snapshot stamp. -/
def wageRowXform (today : Value) (r : Row) : Option Row :=
  ((updateColM "NUMBER_OF_CHILDREN" intCoerce (renameRow wageRenames r)).bind
     (updateColM "COUNTY" (strAppendCoerce " COUNTY"))).map
    (fun r2 => projectRow wageKeepCols r2 ++ [("SNAPSHOT_DATE", today)])

/-- The documented raw column set of a wage extract. -/
def rawWageCols : List String :=
  ["num_children", "num_adults", "county", "num_working", "usd_amount", "wage_level"]

/-- The documented destination column set of the wage transform. -/
def wageDestCols : List String :=
  ["COUNTY", "NUMBER_OF_ADULTS", "NUMBER_OF_CHILDREN", "NUMBER_OF_WORKING_ADULTS",
   "HOURLY_WAGE", "SNAPSHOT_DATE"]

/-- The documented raw column set of an expense extract. -/
def rawExpenseCols : List String :=
  ["num_children", "num_adults", "num_working", "expense_category", "usd_amount", "county"]

/-- The documented destination column set of the expense transform. -/
def expenseDestCols : List String :=
  ["NUMBER_OF_CHILDREN", "NUMBER_OF_ADULTS", "NUMBER_OF_WORKING_ADULTS", "CATEGORY",
   "AMOUNT", "COUNTY", "SNAPSHOT_DATE"]

/-- The documented raw column set of a salary extract. -/
def rawSalaryCols : List String :=
  ["occupational_area", "typical_annual_salary", "county"]

/-- The documented destination column set of the salary transform. -/
def salaryDestCols : List String :=
  ["OCCUPATION", "SALARY", "COUNTY", "SNAPSHOT_DATE"]

/-- Sample processing-date value for the concrete instances. -/
def T0 : Value := Value.date "2024-06-01"

/-- One raw wage row with the given wage level. -/
def wageSampleRow (lvl : String) : Row :=
  [("num_children", Value.str "2"), ("num_adults", Value.str "1"),
   ("county", Value.str "kent"), ("num_working", Value.str "1"),
   ("usd_amount", Value.str "12.50"), ("wage_level", Value.str lvl)]

/-- A raw wage extract with one living-wage and one poverty-wage row. -/
def wageSampleDf : DataFrame :=
  ⟨rawWageCols, [wageSampleRow "LIVING_WAGE", wageSampleRow "POVERTY_WAGE"]⟩

/-- The canonical row the wage transform produces from the living-wage
sample row. -/
def wageSampleOutRow : Row :=
  [("COUNTY", Value.str "kent COUNTY"), ("NUMBER_OF_ADULTS", Value.str "1"),
   ("NUMBER_OF_CHILDREN", Value.int 2), ("NUMBER_OF_WORKING_ADULTS", Value.str "1"),
   ("HOURLY_WAGE", Value.str "12.50"), ("SNAPSHOT_DATE", T0)]

/-- The frame the wage transform produces from `wageSampleDf`. -/
def wageSampleOut : DataFrame := ⟨wageDestCols, [wageSampleOutRow]⟩

/-- A one-row raw expense extract with the given amount text. -/
def expenseSampleDf (amt : String) : DataFrame :=
  ⟨rawExpenseCols,
   [[("num_children", Value.str "2"), ("num_adults", Value.str "1"),
     ("num_working", Value.str "1"), ("expense_category", Value.str "FOOD"),
     ("usd_amount", Value.str amt), ("county", Value.str "kent")]]⟩

/-- The canonical row the expense transform produces from the sample row. -/
def expenseSampleOutRow : Row :=
  [("NUMBER_OF_CHILDREN", Value.int 2), ("NUMBER_OF_ADULTS", Value.str "1"),
   ("NUMBER_OF_WORKING_ADULTS", Value.str "1"), ("CATEGORY", Value.str "FOOD"),
   ("AMOUNT", Value.flt 123450 2), ("COUNTY", Value.str "kent COUNTY"),
   ("SNAPSHOT_DATE", T0)]

/-- The frame the expense transform produces from either sample extract. -/
def expenseSampleOut : DataFrame := ⟨expenseDestCols, [expenseSampleOutRow]⟩

/-- The caller's frame object after `transform_annual_expense_df` has run on
`expenseSampleDf "1,234.50"`: the `usd_amount` column now holds the coerced
float. -/
def expenseSampleMutated : DataFrame :=
  ⟨rawExpenseCols,
   [[("num_children", Value.str "2"), ("num_adults", Value.str "1"),
     ("num_working", Value.str "1"), ("expense_category", Value.str "FOOD"),
     ("usd_amount", Value.flt 123450 2), ("county", Value.str "kent")]]⟩

/-- A one-row raw salary extract. -/
def salarySampleDf : DataFrame :=
  ⟨rawSalaryCols,
   [[("occupational_area", Value.str "NURSE"),
     ("typical_annual_salary", Value.str "50000"), ("county", Value.str "kent")]]⟩

/-- A one-row canonical record whose county is `"KENT COUNTY"`. -/
def kentDf : DataFrame :=
  ⟨["OCCUPATION", "COUNTY"],
   [[("OCCUPATION", Value.str "NURSE"), ("COUNTY", Value.str "KENT COUNTY")]]⟩

/-- A one-row canonical record whose county is absent from `locKent`. -/
def sussexDf : DataFrame :=
  ⟨["OCCUPATION", "COUNTY"],
   [[("OCCUPATION", Value.str "NURSE"), ("COUNTY", Value.str "SUSSEX COUNTY")]]⟩

/-- A two-row canonical record mixing a county present in `locKent`
(`"KENT COUNTY"`) with one absent from it (`"SUSSEX COUNTY"`). -/
def mixedDf : DataFrame :=
  ⟨["OCCUPATION", "COUNTY"],
   [[("OCCUPATION", Value.str "NURSE"), ("COUNTY", Value.str "KENT COUNTY")],
    [("OCCUPATION", Value.str "TEACHER"), ("COUNTY", Value.str "SUSSEX COUNTY")]]⟩

/-- A location dimension table holding only `("KENT COUNTY", id=7)`. -/
def locKent : DataFrame :=
  ⟨["LOCATION_ID", "COUNTY"],
   [[("LOCATION_ID", Value.int 7), ("COUNTY", Value.str "KENT COUNTY")]]⟩

/-- The joined row `add_location_id` produces from `kentDf` and `locKent`. -/
def kentJoined : DataFrame :=
  ⟨["OCCUPATION", "COUNTY", "LOCATION_ID"],
   [[("OCCUPATION", Value.str "NURSE"), ("COUNTY", Value.str "KENT COUNTY"),
     ("LOCATION_ID", Value.int 7)]]⟩

/-- A location table carrying the same county under two surrogate ids. -/
def locDupKent : DataFrame :=
  ⟨["LOCATION_ID", "COUNTY"],
   [[("LOCATION_ID", Value.int 7), ("COUNTY", Value.str "KENT COUNTY")],
    [("LOCATION_ID", Value.int 8), ("COUNTY", Value.str "KENT COUNTY")]]⟩

/-- A one-row location-joined frame stamped with the sample snapshot date. -/
def snapSampleDf : DataFrame :=
  ⟨["OCCUPATION", "SNAPSHOT_DATE"],
   [[("OCCUPATION", Value.str "NURSE"), ("SNAPSHOT_DATE", T0)]]⟩

/-- A date dimension table holding the sample processing date under id 42. -/
def dateTable : DataFrame :=
  ⟨["DATE_ID", "DATE"], [[("DATE_ID", Value.int 42), ("DATE", T0)]]⟩

/-- A blob-store listing with a single object whose key carries no
`"living_wage"` token. -/
def noWageObjects : List (String × DataFrame) :=
  [("real_estate/cost_of_living/2024-01-01/expenses_1.csv", expenseSampleDf "1")]

/-! ### Library lemmas about the embedding's building blocks -/

theorem optMapM_nil {α β : Type} (f : α → Option β) : optMapM f [] = some [] := rfl

theorem optMapM_cons_inv {α β : Type} {f : α → Option β} {a : α} {l : List α}
    {l2 : List β} (h : optMapM f (a :: l) = some l2) :
    ∃ b bs, f a = some b ∧ optMapM f l = some bs ∧ l2 = b :: bs := by
  unfold optMapM at h
  cases hfa : f a with
  | none => rw [hfa] at h; simp at h
  | some b =>
    cases hrec : optMapM f l with
    | none => rw [hfa, hrec] at h; simp at h
    | some bs =>
      rw [hfa, hrec] at h
      simp only [Option.some.injEq] at h
      exact ⟨b, bs, rfl, rfl, h.symm⟩

theorem optMapM_mem {α β : Type} {f : α → Option β} :
    ∀ {l : List α} {l2 : List β}, optMapM f l = some l2 → ∀ {b : β}, b ∈ l2 →
      ∃ a, a ∈ l ∧ f a = some b := by
  intro l
  induction l with
  | nil => intro l2 h b hb; rw [optMapM_nil] at h; cases h; simp at hb
  | cons a t ih =>
    intro l2 h b hb
    obtain ⟨b0, bs, hfa, hrec, rfl⟩ := optMapM_cons_inv h
    rcases List.mem_cons.mp hb with rfl | hmem
    · exact ⟨a, List.mem_cons_self a t, hfa⟩
    · obtain ⟨a2, ha2, hfa2⟩ := ih hrec hmem
      exact ⟨a2, List.mem_cons_of_mem a ha2, hfa2⟩

theorem optMapM_comp_map {α β γ : Type} (f : β → Option γ) (g : α → β) :
    ∀ (l : List α), optMapM f (l.map g) = optMapM (fun a => f (g a)) l := by
  intro l
  induction l with
  | nil => rfl
  | cons a t ih => simp only [List.map_cons, optMapM, ih]

theorem optMapM_chain {α β γ : Type} {f : α → Option β} {g : β → Option γ} :
    ∀ {l : List α} {l1 : List β} {l2 : List γ},
      optMapM f l = some l1 → optMapM g l1 = some l2 →
      optMapM (fun a => (f a).bind g) l = some l2 := by
  intro l
  induction l with
  | nil =>
    intro l1 l2 h1 h2
    rw [optMapM_nil] at h1; cases h1; rw [optMapM_nil] at h2; cases h2; rfl
  | cons a t ih =>
    intro l1 l2 h1 h2
    obtain ⟨b, bs, hfa, hrec, rfl⟩ := optMapM_cons_inv h1
    obtain ⟨c, cs, hgb, hrec2, rfl⟩ := optMapM_cons_inv h2
    have := ih hrec hrec2
    unfold optMapM
    rw [hfa]
    simp only [Option.some_bind, hgb, this]

theorem optMapM_map_post {α β γ : Type} {f : α → Option β} (g : β → γ) :
    ∀ {l : List α} {l1 : List β}, optMapM f l = some l1 →
      optMapM (fun a => (f a).map g) l = some (l1.map g) := by
  intro l
  induction l with
  | nil => intro l1 h; rw [optMapM_nil] at h; cases h; rfl
  | cons a t ih =>
    intro l1 h
    obtain ⟨b, bs, hfa, hrec, rfl⟩ := optMapM_cons_inv h
    have := ih hrec
    unfold optMapM
    rw [hfa]
    simp only [Option.map_some', this, List.map_cons]

theorem filterContains_inv {df d : DataFrame} {c pat : String}
    (h : filterContains df c pat = some d) :
    d.cols = df.cols ∧ d.rows = df.rows.filter (rowPassesContains c pat) := by
  unfold filterContains at h
  split at h
  · simp only [Option.some.injEq] at h
    subst h; exact ⟨rfl, rfl⟩
  · simp at h

theorem colOp_inv {df d : DataFrame} {c : String} {f : Value → Option Value}
    (h : colOp df c f = some d) :
    d.cols = df.cols ∧ optMapM (updateColM c f) df.rows = some d.rows := by
  unfold colOp at h
  split at h
  · cases hm : optMapM (updateColM c f) df.rows with
    | none => rw [hm] at h; simp at h
    | some rs =>
      rw [hm] at h
      simp only [Option.map_some', Option.some.injEq] at h
      subst h
      exact ⟨rfl, rfl⟩
  · simp at h

theorem projectDf_inv {df d : DataFrame} {keep : List String}
    (h : projectDf df keep = some d) :
    d.cols = keep ∧ d.rows = df.rows.map (projectRow keep) := by
  unfold projectDf at h
  split at h
  · simp only [Option.some.injEq] at h
    subst h; exact ⟨rfl, rfl⟩
  · simp at h

theorem lookupCol_updateColM {c : String} {f : Value → Option Value} :
    ∀ {r r2 : Row}, updateColM c f r = some r2 →
      (lookupCol r2 c = (lookupCol r c).bind f ∧
       ∀ c2, c2 ≠ c → lookupCol r2 c2 = lookupCol r c2) := by
  intro r
  induction r with
  | nil =>
    intro r2 h
    unfold updateColM at h; rw [optMapM_nil] at h; cases h
    exact ⟨rfl, fun _ _ => rfl⟩
  | cons p t ih =>
    intro r2 h
    unfold updateColM at h
    obtain ⟨q, qs, hq, hrec, rfl⟩ := optMapM_cons_inv h
    have hrec2 : updateColM c f t = some qs := hrec
    have iht := ih hrec2
    split at hq
    · rename_i hbeq
      obtain ⟨v, hv, rfl⟩ := Option.map_eq_some'.mp hq
      have hpc : p.1 = c := by simpa using hbeq
      constructor
      · simp [lookupCol, hbeq, hv]
      · intro c2 hc2
        have hne : (p.1 == c2) = false := by
          rw [hpc]
          simpa using fun h : c = c2 => hc2 h.symm
        simp only [lookupCol, hne, if_false]
        exact iht.2 c2 hc2
    · rename_i hbeq
      cases hq
      have hne : (p.1 == c) = false := by simpa using hbeq
      constructor
      · simp only [lookupCol, hne, if_false]
        exact iht.1
      · intro c2 hc2
        cases hp2 : p.1 == c2 with
        | true => simp [lookupCol, hp2]
        | false =>
          simp only [lookupCol, hp2, if_false]
          exact iht.2 c2 hc2

theorem lookupCol_projectRow (r : Row) (c : String) :
    ∀ (keep : List String),
      lookupCol (projectRow keep r) c =
        if c ∈ keep then lookupCol r c else none := by
  intro keep
  induction keep with
  | nil => simp [projectRow, lookupCol]
  | cons k t ih =>
    cases hv : lookupCol r k with
    | none =>
      have hrest : projectRow (k :: t) r = projectRow t r := by
        simp [projectRow, List.filterMap_cons, hv]
      rw [hrest, ih]
      by_cases hkc : c = k
      · rw [hkc]
        simp only [List.mem_cons, true_or, if_true, hv, ite_self]
      · simp [List.mem_cons, hkc]
    | some v =>
      have hrest : projectRow (k :: t) r = (k, v) :: projectRow t r := by
        simp [projectRow, List.filterMap_cons, hv]
      rw [hrest]
      by_cases hkc : c = k
      · rw [hkc]
        simp [lookupCol, hv]
      · have hne : (k == c) = false := by simpa using fun h : k = c => hkc h.symm
        simp only [lookupCol, hne, if_false, ih]
        simp [List.mem_cons, hkc]


theorem flatten_map_length_le {α β : Type} (g : α → List β) :
    ∀ (l : List α), (∀ a ∈ l, (g a).length ≤ 1) →
      ((l.map g).flatten).length ≤ l.length := by
  intro l
  induction l with
  | nil => intro _; simp
  | cons a t ih =>
    intro h
    simp only [List.map_cons, List.flatten_cons, List.length_append, List.length_cons]
    have h1 := h a (List.mem_cons_self a t)
    have h2 := ih (fun x hx => h x (List.mem_cons_of_mem a hx))
    omega

theorem rowMatch_none {lk rk : String} {r : Row} (h : lookupCol r lk = none) (d : Row) :
    rowMatch lk rk r d = false := by
  unfold rowMatch
  rw [h]

theorem rowMatch_some {lk rk : String} {r : Row} {v : Value}
    (h : lookupCol r lk = some v) (d : Row) :
    rowMatch lk rk r d = decide (lookupCol d rk = some v) := by
  unfold rowMatch
  rw [h]
  cases hd : lookupCol d rk with
  | none => simp
  | some b => simp [eq_comm]

theorem filter_key_pairwise_le_one {k : String} :
    ∀ {l : List Row}, l.Pairwise (fun d e => lookupCol d k ≠ lookupCol e k) →
      ∀ (v : Value), (l.filter (fun d => decide (lookupCol d k = some v))).length ≤ 1 := by
  intro l
  induction l with
  | nil => intro _ v; simp
  | cons a t ih =>
    intro hp v
    rw [List.pairwise_cons] at hp
    cases ha : decide (lookupCol a k = some v) with
    | false => simpa [List.filter_cons, ha] using ih hp.2 v
    | true =>
      have hav : lookupCol a k = some v := of_decide_eq_true ha
      have ht : t.filter (fun d => decide (lookupCol d k = some v)) = [] := by
        rw [List.filter_eq_nil_iff]
        intro d hd
        simp only [decide_eq_true_eq]
        intro hdv
        exact hp.1 d hd (hav.trans hdv.symm)
      simp [List.filter_cons, ha, ht]

theorem inner_filter_le_one {dim : List Row} {rk : String}
    (hp : dim.Pairwise (fun d e => lookupCol d rk ≠ lookupCol e rk))
    (lk : String) (rr : Row) :
    (dim.filter (rowMatch lk rk rr)).length ≤ 1 := by
  cases hl : lookupCol rr lk with
  | none =>
    have hnil : dim.filter (rowMatch lk rk rr) = [] := by
      rw [List.filter_eq_nil_iff]
      intro d _
      simp [rowMatch_none hl]
    simp [hnil]
  | some v =>
    have hcong : dim.filter (rowMatch lk rk rr) =
        dim.filter (fun d => decide (lookupCol d rk = some v)) :=
      List.filter_congr (fun d _ => rowMatch_some hl d)
    rw [hcong]
    exact filter_key_pairwise_le_one hp v

theorem applyRen_ne_dateId (c : String) :
    applyRen [("DATE_ID", "SNAPSHOT_DATE_ID")] c ≠ "DATE_ID" := by
  unfold applyRen
  cases hf : List.find? (fun p => p.1 == c) [("DATE_ID", "SNAPSHOT_DATE_ID")] with
  | none =>
    intro hc
    subst hc
    simp at hf
  | some p =>
    have hmem := List.mem_of_find?_eq_some hf
    simp only [List.mem_singleton] at hmem
    rw [hmem]
    exact (by decide : ("SNAPSHOT_DATE_ID" : String) ≠ "DATE_ID")

theorem transform_living_wage_inv {today : Value} {df out : DataFrame}
    (h : transform_living_wage_df today df = some out) :
    ∃ d1 d3 d4 d5,
      filterContains df "wage_level" "LIVING" = some d1 ∧
      astypeIntCol (renameDf d1 wageRenames) "NUMBER_OF_CHILDREN" = some d3 ∧
      applyAppendCol d3 "COUNTY" " COUNTY" = some d4 ∧
      projectDf d4 wageKeepCols = some d5 ∧
      out = addConstCol d5 "SNAPSHOT_DATE" today := by
  unfold transform_living_wage_df at h
  simp only [Option.bind_eq_some, Option.map_eq_some'] at h
  obtain ⟨d1, h1, d3, h3, d4, h4, d5, h5, hout⟩ := h
  exact ⟨d1, d3, d4, d5, h1, h3, h4, h5, hout.symm⟩

theorem expenseAfterCoerce_inv {today : Value} {d1 out : DataFrame}
    (h : expenseAfterCoerce today d1 = some out) :
    ∃ d3 d4,
      astypeIntCol (renameDf d1 expenseRenames) "NUMBER_OF_CHILDREN" = some d3 ∧
      applyAppendCol d3 "COUNTY" " COUNTY" = some d4 ∧
      out = addConstCol d4 "SNAPSHOT_DATE" today := by
  unfold expenseAfterCoerce at h
  simp only [Option.bind_eq_some, Option.map_eq_some'] at h
  obtain ⟨d3, h3, d4, h4, hout⟩ := h
  exact ⟨d3, d4, h3, h4, hout.symm⟩

theorem transform_annual_expense_inv {today : Value} {df out : DataFrame}
    (h : transform_annual_expense_df today df = some out) :
    ∃ d1, astypeFloatCommaCol df "usd_amount" = some d1 ∧
      expenseAfterCoerce today d1 = some out := by
  unfold transform_annual_expense_df at h
  simpa only [Option.bind_eq_some] using h

/-! ### Claim theorems -/

set_option maxRecDepth 10000 in
/-- C1: a row of the input survives the wage transform exactly when its
`wage_level` cell contains the case-sensitive substring `"LIVING"`: the
output rows are precisely the images, under the row-level rename/coerce/
suffix/project/stamp pipeline, of the input rows passing the substring
filter.  In particular, on an extract holding one `"LIVING_WAGE"` row and
one `"POVERTY_WAGE"` row, only the `"LIVING_WAGE"` row survives. -/
theorem living_wage_filter_keeps_exactly_living_rows :
    (∀ (today : Value) (df out : DataFrame),
        transform_living_wage_df today df = some out →
        optMapM (wageRowXform today)
          (df.rows.filter (rowPassesContains "wage_level" "LIVING")) = some out.rows) ∧
    transform_living_wage_df T0 wageSampleDf = some wageSampleOut := by
  constructor
  · intro today df out h
    obtain ⟨d1, d3, d4, d5, h1, h3, h4, h5, hout⟩ := transform_living_wage_inv h
    obtain ⟨hc1, hr1⟩ := filterContains_inv h1
    obtain ⟨hc3, hm3⟩ := colOp_inv h3
    obtain ⟨hc4, hm4⟩ := colOp_inv h4
    obtain ⟨hc5, hr5⟩ := projectDf_inv h5
    have hren : (renameDf d1 wageRenames).rows = d1.rows.map (renameRow wageRenames) := rfl
    rw [hren, optMapM_comp_map] at hm3
    have hchain := optMapM_chain hm3 hm4
    have hpost := optMapM_map_post
      (fun r2 => projectRow wageKeepCols r2 ++ [("SNAPSHOT_DATE", today)]) hchain
    subst hout
    have hrows : (addConstCol d5 "SNAPSHOT_DATE" today).rows =
        d4.rows.map (fun r2 => projectRow wageKeepCols r2 ++ [("SNAPSHOT_DATE", today)]) := by
      show d5.rows.map _ = _
      rw [hr5, List.map_map]
      rfl
    rw [hrows, ← hr1]
    exact hpost
  · decide

set_option maxRecDepth 10000 in
/-- Witness for C1 at a concrete extract: the generic clause applied to the
two-row sample with one living-wage and one poverty-wage row. -/
theorem living_wage_filter_witness :
    optMapM (wageRowXform T0)
      (wageSampleDf.rows.filter (rowPassesContains "wage_level" "LIVING")) =
      some wageSampleOut.rows :=
  living_wage_filter_keeps_exactly_living_rows.1 T0 wageSampleDf wageSampleOut (by decide)

/-- C2: the column set each transform emits is exactly the documented
destination set — the wage transform always emits precisely
`wageDestCols`; the expense and salary transforms, on an extract carrying
exactly the documented raw columns, emit exactly the documented
destination columns (as a permutation: no extra, none missing). -/
theorem transform_output_columns_match_destination :
    (∀ (today : Value) (df out : DataFrame),
        transform_living_wage_df today df = some out → out.cols = wageDestCols) ∧
    (∀ (today : Value) (df out : DataFrame), df.cols.Perm rawExpenseCols →
        transform_annual_expense_df today df = some out →
        out.cols.Perm expenseDestCols) ∧
    (∀ (today : Value) (df out : DataFrame), df.cols.Perm rawSalaryCols →
        transform_typical_annual_salary_df today df = some out →
        out.cols.Perm salaryDestCols) := by
  refine ⟨?_, ?_, ?_⟩
  · intro today df out h
    obtain ⟨d1, d3, d4, d5, h1, h3, h4, h5, hout⟩ := transform_living_wage_inv h
    obtain ⟨hc5, -⟩ := projectDf_inv h5
    subst hout
    show d5.cols ++ ["SNAPSHOT_DATE"] = wageDestCols
    rw [hc5]
    rfl
  · intro today df out hperm h
    obtain ⟨d1, hf, hrest⟩ := transform_annual_expense_inv h
    obtain ⟨d3, d4, h3, h4, hout⟩ := expenseAfterCoerce_inv hrest
    obtain ⟨hcf, -⟩ := colOp_inv hf
    obtain ⟨hc3, -⟩ := colOp_inv h3
    obtain ⟨hc4, -⟩ := colOp_inv h4
    subst hout
    show List.Perm (d4.cols ++ ["SNAPSHOT_DATE"]) expenseDestCols
    rw [hc4, hc3]
    have hrc : (renameDf d1 expenseRenames).cols = d1.cols.map (applyRen expenseRenames) := rfl
    rw [hrc, hcf]
    have h6 : List.Perm (df.cols.map (applyRen expenseRenames))
        (rawExpenseCols.map (applyRen expenseRenames)) := hperm.map _
    have h7 : rawExpenseCols.map (applyRen expenseRenames) =
        ["NUMBER_OF_CHILDREN", "NUMBER_OF_ADULTS", "NUMBER_OF_WORKING_ADULTS",
         "CATEGORY", "AMOUNT", "COUNTY"] := by decide
    have h8 : List.Perm (df.cols.map (applyRen expenseRenames))
        ["NUMBER_OF_CHILDREN", "NUMBER_OF_ADULTS", "NUMBER_OF_WORKING_ADULTS",
         "CATEGORY", "AMOUNT", "COUNTY"] := by
      rw [← h7]
      exact h6
    exact h8.append_right ["SNAPSHOT_DATE"]
  · intro today df out hperm h
    obtain ⟨hca, -⟩ := colOp_inv h
    rw [hca]
    show List.Perm ((renameDf df salaryRenames).cols ++ ["SNAPSHOT_DATE"]) salaryDestCols
    have hrc : (renameDf df salaryRenames).cols = df.cols.map (applyRen salaryRenames) := rfl
    rw [hrc]
    have h6 : List.Perm (df.cols.map (applyRen salaryRenames))
        (rawSalaryCols.map (applyRen salaryRenames)) := hperm.map _
    have h7 : rawSalaryCols.map (applyRen salaryRenames) =
        ["OCCUPATION", "SALARY", "COUNTY"] := by decide
    have h8 : List.Perm (df.cols.map (applyRen salaryRenames))
        ["OCCUPATION", "SALARY", "COUNTY"] := by
      rw [← h7]
      exact h6
    exact h8.append_right ["SNAPSHOT_DATE"]

/-- Witness for C2 at concrete extracts carrying exactly the documented raw
columns (no data rows needed): all three transforms emit the documented
destination column sets. -/
theorem transform_output_columns_witness :
    (⟨rawWageCols, []⟩ : DataFrame).cols.Perm rawWageCols ∧
    (⟨wageDestCols, []⟩ : DataFrame).cols = wageDestCols ∧
    (⟨expenseDestCols, []⟩ : DataFrame).cols.Perm expenseDestCols ∧
    (⟨salaryDestCols, []⟩ : DataFrame).cols.Perm salaryDestCols := by
  refine ⟨by decide, ?_, ?_, ?_⟩
  · exact transform_output_columns_match_destination.1 T0 ⟨rawWageCols, []⟩
      ⟨wageDestCols, []⟩ (by decide)
  · exact transform_output_columns_match_destination.2.1 T0 ⟨rawExpenseCols, []⟩
      ⟨expenseDestCols, []⟩ (by decide) (by decide)
  · exact transform_output_columns_match_destination.2.2 T0 ⟨rawSalaryCols, []⟩
      ⟨salaryDestCols, []⟩ (by decide) (by decide)

/-- C3: the location join is an inner equi-join on exact `COUNTY` string
equality.  A row belongs to the joined output exactly when it is an input
row concatenated with a location row (minus the duplicated key column)
whose `COUNTY` cell equals the input's — so every input row matching a
location row produces the joined row carrying that row's `LOCATION_ID`,
and an input row matching no location row contributes nothing, mixed
frames included.  A frame none of whose rows matches yields zero output
rows (silent drop, not an error); on the concrete examples the
`COUNTY="KENT COUNTY"` row joined against `{("KENT COUNTY", id=7)}`
carries `LOCATION_ID = 7`, also when a `"SUSSEX COUNTY"` row sits beside
it in the same frame (that row is dropped). -/
theorem location_join_attaches_key_and_drops_unmatched :
    (∀ (df loc : DataFrame) (v : Row),
        v ∈ (add_location_id df loc).rows ↔
          ∃ r ∈ df.rows, ∃ d ∈ loc.rows,
            rowMatch "COUNTY" "COUNTY" r d = true ∧
            v = r ++ d.filter (fun p => p.1 != "COUNTY")) ∧
    (∀ (df loc : DataFrame),
        (∀ r ∈ df.rows, ∀ d ∈ loc.rows, rowMatch "COUNTY" "COUNTY" r d = false) →
        (add_location_id df loc).rows = []) ∧
    add_location_id kentDf locKent = kentJoined ∧
    add_location_id mixedDf locKent = kentJoined := by
  refine ⟨?_, ?_, by decide, by decide⟩
  · intro df loc v
    constructor
    · intro hv
      obtain ⟨s, hs, hws⟩ := List.mem_flatten.mp hv
      obtain ⟨r, hr, rfl⟩ := List.mem_map.mp hs
      obtain ⟨d, hd, rfl⟩ := List.mem_map.mp hws
      obtain ⟨hdmem, hmatch⟩ := List.mem_filter.mp hd
      exact ⟨r, hr, d, hdmem, hmatch, rfl⟩
    · rintro ⟨r, hr, d, hd, hmatch, rfl⟩
      apply List.mem_flatten.mpr
      refine ⟨(loc.rows.filter (rowMatch "COUNTY" "COUNTY" r)).map
        (fun d2 => r ++ d2.filter (fun p => p.1 != "COUNTY")), ?_, ?_⟩
      · exact List.mem_map.mpr ⟨r, hr, rfl⟩
      · exact List.mem_map.mpr ⟨d, List.mem_filter.mpr ⟨hd, hmatch⟩, rfl⟩
  · intro df loc h
    show ((df.rows.map (fun rr =>
      (loc.rows.filter (rowMatch "COUNTY" "COUNTY" rr)).map
        (fun d => rr ++ d.filter (fun p => p.1 != "COUNTY")))).flatten) = []
    rw [List.flatten_eq_nil_iff]
    intro s hs
    obtain ⟨r, hr, rfl⟩ := List.mem_map.mp hs
    have hnil : loc.rows.filter (rowMatch "COUNTY" "COUNTY" r) = [] := by
      rw [List.filter_eq_nil_iff]
      intro d hd
      simp [h r hr d hd]
    rw [hnil]
    rfl

/-- Witness for C3: a canonical record whose county is absent from the
location table joins to zero rows, and in the mixed frame the matched
KENT row's joined image (carrying `LOCATION_ID = 7`) is in the output. -/
theorem location_join_witness :
    (add_location_id sussexDf locKent).rows = [] ∧
    ([("OCCUPATION", Value.str "NURSE"), ("COUNTY", Value.str "KENT COUNTY")] ++
      ([("LOCATION_ID", Value.int 7), ("COUNTY", Value.str "KENT COUNTY")] : Row).filter
        (fun p => p.1 != "COUNTY")) ∈ (add_location_id mixedDf locKent).rows := by
  constructor
  · exact location_join_attaches_key_and_drops_unmatched.2.1 sussexDf locKent (by decide)
  · exact (location_join_attaches_key_and_drops_unmatched.1 mixedDf locKent _).mpr
      ⟨[("OCCUPATION", Value.str "NURSE"), ("COUNTY", Value.str "KENT COUNTY")], by decide,
       [("LOCATION_ID", Value.int 7), ("COUNTY", Value.str "KENT COUNTY")], by decide,
       by decide, rfl⟩

set_option maxRecDepth 10000 in
/-- C5: the expense transform strips thousands-separator commas and coerces
the amount to a float: the extracts `"1,234.50"` and `"1234.50"` both
produce the same output frame, whose `AMOUNT` cell is the float `1234.50`
(the scaled decimal `123450 / 10^2`, i.e. the rational `1234.5`). -/
theorem expense_amount_comma_strip_float :
    transform_annual_expense_df T0 (expenseSampleDf "1,234.50") = some expenseSampleOut ∧
    transform_annual_expense_df T0 (expenseSampleDf "1234.50") = some expenseSampleOut ∧
    expenseSampleOut.rows = [expenseSampleOutRow] ∧
    lookupCol expenseSampleOutRow "AMOUNT" = some (Value.flt 123450 2) ∧
    fltDenote 123450 2 = 1234.5 := by
  refine ⟨by decide, by decide, rfl, by decide, ?_⟩
  norm_num [fltDenote]

/-- C6 counterexample: when no listed key contains the category token the
extractor does not return an empty dataset — it returns the fatal
concatenation error (`none`). -/
theorem no_matching_objects_counterexample :
    get_df_from_s3 noWageObjects "living_wage" = none := by decide

/-- C6 amended: with no matching objects the fetch aborts with the fatal
"no objects to concatenate" error (`none`) — and this is the only way it
can fail; it never returns an empty dataset. -/
theorem no_matching_objects_fatal :
    ∀ (objects : List (String × DataFrame)) (category : String),
      get_df_from_s3 objects category = none ↔
        objects.filter (fun p => strContains p.1 category) = [] := by
  intro objects category
  unfold get_df_from_s3
  cases h : objects.filter (fun p => strContains p.1 category) with
  | nil => simp [concatFrames]
  | cons a t => simp [concatFrames]

/-- C9: column projection fails exactly when some requested destination
column is absent from the joined frame, and on success the output column
list is exactly the requested one — never a silently partial subset. -/
theorem projection_fails_iff_column_missing :
    ∀ (df : DataFrame) (keep : List String),
      (projectDf df keep = none ↔ ∃ c ∈ keep, c ∉ df.cols) ∧
      (∀ out, projectDf df keep = some out → out.cols = keep) := by
  intro df keep
  constructor
  · unfold projectDf
    split
    · rename_i hall
      simp only [List.all_eq_true] at hall
      constructor
      · intro h
        simp at h
      · rintro ⟨c, hc, hnc⟩
        have := hall c hc
        simp at this
        exact absurd this hnc
    · rename_i hall
      simp only [List.all_eq_true, not_forall] at hall
      constructor
      · intro _
        obtain ⟨c, hc, hnc⟩ := hall
        refine ⟨c, hc, ?_⟩
        simpa using hnc
      · intro _
        rfl
  · intro out h
    exact (projectDf_inv h).1

/-- Witness for C9: requesting `LOCATION_ID` from a frame that lacks it is
the fatal `none`; requesting only present columns returns exactly them. -/
theorem projection_witness :
    projectDf kentDf ["OCCUPATION", "LOCATION_ID"] = none ∧
    (⟨["OCCUPATION"], [[("OCCUPATION", Value.str "NURSE")]]⟩ : DataFrame).cols =
      ["OCCUPATION"] := by
  constructor
  · exact (projection_fails_iff_column_missing kentDf ["OCCUPATION", "LOCATION_ID"]).1.mpr
      ⟨"LOCATION_ID", by decide, by decide⟩
  · exact (projection_fails_iff_column_missing kentDf ["OCCUPATION"]).2
      ⟨["OCCUPATION"], [[("OCCUPATION", Value.str "NURSE")]]⟩ (by decide)

/-- C4: county normalization is applied exactly once: the county-suffix
step rewrites each row's `COUNTY` cell to the matching input cell's value
with one `" COUNTY"` suffix appended; the normalization is not idempotent
(a double application always differs from a single one); and on the
concrete samples the transforms emit `"kent COUNTY"` — a single suffix —
for both the wage and the expense dataset. -/
theorem county_suffix_applied_once_not_idempotent :
    (∀ s : String, normalizeCounty (normalizeCounty s) ≠ normalizeCounty s) ∧
    (∀ (df df2 : DataFrame) (r2 : Row),
        applyAppendCol df "COUNTY" " COUNTY" = some df2 → r2 ∈ df2.rows →
        ∃ r ∈ df.rows, lookupCol r2 "COUNTY" =
          (lookupCol r "COUNTY").bind (strAppendCoerce " COUNTY")) ∧
    (∀ r2 ∈ wageSampleOut.rows, lookupCol r2 "COUNTY" =
        some (Value.str (normalizeCounty "kent"))) ∧
    (∀ r2 ∈ expenseSampleOut.rows, lookupCol r2 "COUNTY" =
        some (Value.str (normalizeCounty "kent"))) := by
  refine ⟨?_, ?_, by decide, by decide⟩
  · intro s h
    have hlen := congrArg String.length h
    simp only [normalizeCounty, String.length_append] at hlen
    have h7 : (" COUNTY" : String).length = 7 := rfl
    rw [h7] at hlen
    omega
  · intro df df2 r2 h hr2
    obtain ⟨-, hm⟩ := colOp_inv h
    obtain ⟨r, hr, hup⟩ := optMapM_mem hm hr2
    exact ⟨r, hr, (lookupCol_updateColM hup).1⟩

/-- Witness for C4: the non-idempotence clause at `"kent"`, the
single-suffix clause at a one-column frame, and the concrete wage output
row. -/
theorem county_suffix_witness :
    normalizeCounty (normalizeCounty "kent") ≠ normalizeCounty "kent" ∧
    (∃ r ∈ ([[("COUNTY", Value.str "kent")]] : List Row),
        lookupCol [("COUNTY", Value.str "kent COUNTY")] "COUNTY" =
          (lookupCol r "COUNTY").bind (strAppendCoerce " COUNTY")) ∧
    lookupCol wageSampleOutRow "COUNTY" = some (Value.str (normalizeCounty "kent")) := by
  refine ⟨county_suffix_applied_once_not_idempotent.1 "kent", ?_, ?_⟩
  · exact county_suffix_applied_once_not_idempotent.2.1
      ⟨["COUNTY"], [[("COUNTY", Value.str "kent")]]⟩
      ⟨["COUNTY"], [[("COUNTY", Value.str "kent COUNTY")]]⟩
      [("COUNTY", Value.str "kent COUNTY")] (by decide) (by decide)
  · exact county_suffix_applied_once_not_idempotent.2.2.1 wageSampleOutRow (by decide)

/-- C7 counterexample: with a location table carrying the same county under
two surrogate ids, the county join emits more rows than its one-row input,
so the unconditional row-count bound fails. -/
theorem join_rowcount_counterexample :
    ¬ ((add_location_id kentDf locDupKent).rows.length ≤ kentDf.rows.length) := by decide

/-- C7 amended: for both resolver joins (the shared-key county join and
the left/right-key date join), if the dimension table holds at most one
row per join-key value (pairwise distinct key cells), the joined output
has at most as many rows as the input canonical record. -/
theorem join_rowcount_le_with_unique_dim_keys :
    (∀ (df loc : DataFrame) (k : String),
        loc.rows.Pairwise (fun d e => lookupCol d k ≠ lookupCol e k) →
        (mergeOn df loc k).rows.length ≤ df.rows.length) ∧
    (∀ (df dd : DataFrame) (lk rk : String),
        dd.rows.Pairwise (fun d e => lookupCol d rk ≠ lookupCol e rk) →
        (mergeLR df dd lk rk).rows.length ≤ df.rows.length) := by
  constructor
  · intro df loc k hp
    show ((df.rows.map (fun rr => (loc.rows.filter (rowMatch k k rr)).map
      (fun d => rr ++ d.filter (fun p => p.1 != k)))).flatten).length ≤ df.rows.length
    apply flatten_map_length_le
    intro r _
    rw [List.length_map]
    exact inner_filter_le_one hp k r
  · intro df dd lk rk hp
    show ((df.rows.map (fun rr => (dd.rows.filter (rowMatch lk rk rr)).map
      (fun d => rr ++ d))).flatten).length ≤ df.rows.length
    apply flatten_map_length_le
    intro r _
    rw [List.length_map]
    exact inner_filter_le_one hp lk r

/-- Witness for C7 (amended): both joins on the one-row dimension tables,
whose key cells are trivially pairwise distinct. -/
theorem join_rowcount_witness :
    (mergeOn kentDf locKent "COUNTY").rows.length ≤ kentDf.rows.length ∧
    (mergeLR snapSampleDf dateTable "SNAPSHOT_DATE" "DATE").rows.length ≤
      snapSampleDf.rows.length := by
  constructor
  · exact join_rowcount_le_with_unique_dim_keys.1 kentDf locKent "COUNTY" (by simp [locKent])
  · exact join_rowcount_le_with_unique_dim_keys.2 snapSampleDf dateTable
      "SNAPSHOT_DATE" "DATE" (by simp [dateTable])

/-- C8: a row belongs to the date-join output exactly when it is the
rename (`DATE_ID ↦ SNAPSHOT_DATE_ID`) of an input row concatenated with a
date-dimension row whose `DATE` cell equals the input's `SNAPSHOT_DATE`
cell (inner join: unmatched rows contribute nothing); the output columns
carry `SNAPSHOT_DATE_ID` in place of the dimension's `DATE_ID`, and never
`DATE_ID` itself. -/
theorem date_join_inner_semantics_and_rename :
    (∀ (df dd : DataFrame) (v : Row),
        v ∈ (add_date_id df dd).rows ↔
          ∃ r ∈ df.rows, ∃ d ∈ dd.rows,
            rowMatch "SNAPSHOT_DATE" "DATE" r d = true ∧
            v = renameRow [("DATE_ID", "SNAPSHOT_DATE_ID")] (r ++ d)) ∧
    (∀ (df dd : DataFrame), "DATE_ID" ∈ dd.cols →
        "SNAPSHOT_DATE_ID" ∈ (add_date_id df dd).cols) ∧
    (∀ (df dd : DataFrame), "DATE_ID" ∉ (add_date_id df dd).cols) := by
  refine ⟨?_, ?_, ?_⟩
  · intro df dd v
    constructor
    · intro hv
      obtain ⟨w, hw, rfl⟩ := List.mem_map.mp hv
      obtain ⟨s, hs, hws⟩ := List.mem_flatten.mp hw
      obtain ⟨r, hr, rfl⟩ := List.mem_map.mp hs
      obtain ⟨d, hd, rfl⟩ := List.mem_map.mp hws
      obtain ⟨hdmem, hmatch⟩ := List.mem_filter.mp hd
      exact ⟨r, hr, d, hdmem, hmatch, rfl⟩
    · rintro ⟨r, hr, d, hd, hmatch, rfl⟩
      apply List.mem_map.mpr
      refine ⟨r ++ d, ?_, rfl⟩
      apply List.mem_flatten.mpr
      refine ⟨(dd.rows.filter (rowMatch "SNAPSHOT_DATE" "DATE" r)).map
        (fun d2 => r ++ d2), ?_, ?_⟩
      · exact List.mem_map.mpr ⟨r, hr, rfl⟩
      · exact List.mem_map.mpr ⟨d, List.mem_filter.mpr ⟨hd, hmatch⟩, rfl⟩
  · intro df dd h
    show "SNAPSHOT_DATE_ID" ∈
      (df.cols ++ dd.cols).map (applyRen [("DATE_ID", "SNAPSHOT_DATE_ID")])
    exact List.mem_map.mpr ⟨"DATE_ID", List.mem_append_right _ h, rfl⟩
  · intro df dd hmem
    obtain ⟨c, _, hcr⟩ := List.mem_map.mp hmem
    exact applyRen_ne_dateId c hcr

/-- Witness for C8: on the concrete location-joined sample and date table,
the output columns carry the renamed surrogate key, and the joined row
built from the matching pair is in the output. -/
theorem date_join_witness :
    "SNAPSHOT_DATE_ID" ∈ (add_date_id snapSampleDf dateTable).cols ∧
    renameRow [("DATE_ID", "SNAPSHOT_DATE_ID")]
      ([("OCCUPATION", Value.str "NURSE"), ("SNAPSHOT_DATE", T0)] ++
       [("DATE_ID", Value.int 42), ("DATE", T0)]) ∈
      (add_date_id snapSampleDf dateTable).rows := by
  constructor
  · exact date_join_inner_semantics_and_rename.2.1 snapSampleDf dateTable (by decide)
  · exact (date_join_inner_semantics_and_rename.1 snapSampleDf dateTable _).mpr
      ⟨[("OCCUPATION", Value.str "NURSE"), ("SNAPSHOT_DATE", T0)], by decide,
       [("DATE_ID", Value.int 42), ("DATE", T0)], by decide, by decide, rfl⟩

/-- C10 counterexample: the expense transform is not pure in the caller's
frame — after the call on the comma sample, the caller's object differs
from the frame it passed in (its `usd_amount` column was reassigned in
place on line 71 before any rebinding). -/
theorem expense_transform_mutates_caller_frame :
    (transform_annual_expense_call T0 (expenseSampleDf "1,234.50")).1 ≠
      expenseSampleDf "1,234.50" := by decide

/-- C10 amended: the wage and salary transforms leave the caller's frame
object unchanged (they rebind the local name to a fresh frame before any
in-place column write); the expense transform mutates the caller's frame:
after a successful call the caller's object holds the comma-stripped,
float-coerced `usd_amount` column, and when the coercion fails the
exception propagates before the assignment, leaving the object unchanged. -/
theorem transform_call_state :
    (∀ (today : Value) (df : DataFrame), (transform_living_wage_call today df).1 = df) ∧
    (∀ (today : Value) (df : DataFrame),
        (transform_typical_annual_salary_call today df).1 = df) ∧
    (∀ (today : Value) (df d1 : DataFrame),
        astypeFloatCommaCol df "usd_amount" = some d1 →
        (transform_annual_expense_call today df).1 = d1) ∧
    (∀ (today : Value) (df : DataFrame),
        astypeFloatCommaCol df "usd_amount" = none →
        (transform_annual_expense_call today df).1 = df) := by
  refine ⟨fun _ _ => rfl, fun _ _ => rfl, ?_, ?_⟩
  · intro today df d1 h
    unfold transform_annual_expense_call
    rw [h]
  · intro today df h
    unfold transform_annual_expense_call
    rw [h]

/-- Witness for C10 (amended): on the comma sample the caller's frame ends
up in the coerced state. -/
theorem transform_call_state_witness :
    (transform_annual_expense_call T0 (expenseSampleDf "1,234.50")).1 =
      expenseSampleMutated :=
  transform_call_state.2.2.1 T0 (expenseSampleDf "1,234.50") expenseSampleMutated
    (by decide)

end CostOfLivingEtl
